import Mathlib

/-
Formal model of the HelpMate concurrent command-execution and task-orchestration
core: a shallow embedding of src/core/executor.py (ShellExecutor) and
src/core/agents/manager.py (AgentManager), with theorems about the embedded
definitions.  OS-level effects (process spawning, the Docker backend, the
Ollama HTTP client, the event-loop clock) enter the model as explicit oracle
arguments describing the behaviour of the external world; everything the
Python code itself computes is translated directly from the source.
-/

namespace HelpMate

/-- Subset of src/core/config.py Settings used by the execution core, with the
source defaults. -/
structure Settings where
  ollama_timeout : Nat := 300
  max_concurrent_agents : Nat := 4
  use_containers : Bool := true
deriving DecidableEq, Repr

/-- Embeds the module-level `settings = Settings()` singleton. -/
def settings : Settings := {}

/-- Embeds executor.py ExecutionResult (pydantic model). -/
structure ExecutionResult where
  command : String
  exit_code : Int
  stdout : String
  stderr : String
  duration : Nat
  pid : Option Nat := none
deriving DecidableEq, Repr

/-- Embeds executor.py ExecutionRequest (pydantic model).  The environment
override dict is an association list; the Python field is Optional. -/
structure ExecutionRequest where
  command : String
  args : List String := []
  cwd : Option String := none
  env : Option (List (String × String)) := none
  timeout : Option Nat := none
  pty : Bool := false
  elevated : Bool := false
  sandbox : Bool := false
deriving DecidableEq, Repr

/-- Embeds ShellExecutor: its only instance state is the platform string
(platform.system().lower()) and the shell derived from it. -/
structure ShellExecutor where
  platform : String
deriving DecidableEq, Repr

/-- Embeds ShellExecutor._get_shell. -/
def ShellExecutor._get_shell (ex : ShellExecutor) : String :=
  if ex.platform = "windows" then "powershell.exe" else "/bin/bash"

/-- Embeds ShellExecutor._build_command: the invocation vector.  On Windows the
pty and non-pty branches of the source are textually identical. -/
def ShellExecutor._build_command (ex : ShellExecutor) (request : ExecutionRequest) :
    List String :=
  if ex.platform = "windows" then
    if request.pty then
      ["powershell.exe", "-NoProfile", "-Command", request.command]
    else
      ["powershell.exe", "-NoProfile", "-Command", request.command]
  else
    if request.pty then
      ["script", "-qec", request.command, "/dev/null"]
    else
      [ex._get_shell, "-c", request.command]

/-- Replace the value of a key in an association list, or append the binding,
modelling Python dict item assignment. -/
def dictSet {β : Type} (d : List (String × β)) (k : String) (v : β) :
    List (String × β) :=
  if d.any (fun p => p.1 == k) then
    d.map (fun p => if p.1 == k then (k, v) else p)
  else
    d ++ [(k, v)]

/-- Python dict.update applied binding by binding. -/
def dictUpdate {β : Type} (base overrides : List (String × β)) : List (String × β) :=
  overrides.foldl (fun d kv => dictSet d kv.1 kv.2) base

/-- Embeds the environment construction in ShellExecutor.execute and
stream_output: env = os.environ.copy(); if request.env: env.update(request.env).
An absent override dict (and likewise the falsy empty dict) leaves the
inherited environment unchanged. -/
def mergeEnv (osEnviron : List (String × String)) :
    Option (List (String × String)) → List (String × String)
  | none => osEnviron
  | some overrides => dictUpdate osEnviron overrides

/-- The arguments the source passes to create_subprocess_exec: the invocation
vector, whether stdin is a pipe (request.pty), the working directory and the
merged environment. -/
structure SpawnCall where
  argv : List String
  stdinPipe : Bool
  cwd : Option String
  env : List (String × String)
deriving DecidableEq, Repr

/-- Behaviour of a successfully spawned OS process: its pid, the wall time
until it exits on its own, the extra wall time for kill plus wait to be
confirmed by the OS on the timeout path, its exit code, and its decoded
captured output (decoding with errors=replace is absorbed into the oracle). -/
structure ProcessBehaviour where
  pid : Nat
  runTime : Nat
  reapTime : Nat
  exit_code : Int
  stdout : String
  stderr : String
deriving DecidableEq, Repr

/-- Outcome of the create_subprocess_exec call: a process, or a spawn
exception (missing binary, permission denied, bad working directory) whose
text is msg. -/
inductive SpawnResult where
  | ok (p : ProcessBehaviour)
  | err (msg : String)
deriving DecidableEq, Repr

/-- Behaviour of the Docker backend: the container finished with a status code
and combined logs, or the backend raised (daemon unreachable, import failure)
with message msg; wallTime is the wall time the attempt consumed. -/
inductive ContainerOutcome where
  | finished (statusCode : Int) (logs : String) (wallTime : Nat)
  | failed (msg : String) (wallTime : Nat)
deriving DecidableEq, Repr

/-- Events of one ShellExecutor.execute call, in order: the process was
spawned, exited on its own, was killed, was reaped (process.wait returned, the
OS confirmed termination). -/
inductive ExecEvent where
  | spawned (pid : Nat)
  | exited
  | killed
  | reaped
deriving DecidableEq, Repr

/-- Everything one ShellExecutor.execute call produced: the ExecutionResult
returned to the caller, the spawn call made (none on the container path), the
process lifecycle events in order, and the model wall clock (event-loop time
since start_time) at the moment execute returns. -/
structure ExecOutcome where
  result : ExecutionResult
  call : Option SpawnCall
  events : List ExecEvent
  finalClock : Nat
deriving DecidableEq, Repr

/-- Embeds the timeout selection `request.timeout or settings.ollama_timeout`:
Python `or` falls through to the default on None and on the falsy value 0. -/
def effectiveTimeout (request : ExecutionRequest) (s : Settings) : Nat :=
  match request.timeout with
  | some t => if t = 0 then s.ollama_timeout else t
  | none => s.ollama_timeout

/-- Embeds ShellExecutor._execute_in_container: on success an ExecutionResult
with the container status code, combined logs as stdout, empty stderr and the
hard-coded duration 0; on backend failure the exception is re-raised
(modelled as the error branch), to be converted by the caller. -/
def ShellExecutor._execute_in_container (request : ExecutionRequest)
    (container : ContainerOutcome) : Except (String × Nat) (ExecutionResult × Nat) :=
  match container with
  | .finished statusCode logs wallTime =>
      .ok ({ command := request.command, exit_code := statusCode, stdout := logs,
             stderr := "", duration := 0, pid := none }, wallTime)
  | .failed msg wallTime => .error (msg, wallTime)

/-- Embeds ShellExecutor.execute.  The body is one try block: spawn failures,
timeouts (re-raised as TimeoutError after kill and wait) and container-backend
failures are all caught by the final handler, which returns exit code -1 with
the exception text as stderr and the elapsed wall time as duration; execute
therefore never raises to its caller.  On timeout the process is killed and
then waited on (events killed, reaped) before the TimeoutError is raised. -/
def ShellExecutor.execute (ex : ShellExecutor) (s : Settings)
    (osEnviron : List (String × String)) (request : ExecutionRequest)
    (spawn : SpawnResult) (container : ContainerOutcome) : ExecOutcome :=
  let env := mergeEnv osEnviron request.env
  let cmd := ex._build_command request
  if request.sandbox && s.use_containers then
    match ShellExecutor._execute_in_container request container with
    | .ok (r, wallTime) =>
        { result := r, call := none, events := [], finalClock := wallTime }
    | .error (msg, wallTime) =>
        { result := { command := request.command, exit_code := -1, stdout := "",
                      stderr := msg, duration := wallTime, pid := none },
          call := none, events := [], finalClock := wallTime }
  else
    match spawn with
    | .err msg =>
        { result := { command := request.command, exit_code := -1, stdout := "",
                      stderr := msg, duration := 0, pid := none },
          call := some { argv := cmd, stdinPipe := request.pty,
                         cwd := request.cwd, env := env },
          events := [], finalClock := 0 }
    | .ok p =>
        let timeout := effectiveTimeout request s
        if timeout < p.runTime then
          let clock := timeout + p.reapTime
          { result := { command := request.command, exit_code := -1, stdout := "",
                        stderr := "Command timed out after " ++
                                  (toString timeout ++ " seconds"),
                        duration := clock, pid := none },
            call := some { argv := cmd, stdinPipe := request.pty,
                           cwd := request.cwd, env := env },
            events := [.spawned p.pid, .killed, .reaped], finalClock := clock }
        else
          { result := { command := request.command, exit_code := p.exit_code,
                        stdout := p.stdout, stderr := p.stderr,
                        duration := p.runTime, pid := some p.pid },
            call := some { argv := cmd, stdinPipe := request.pty,
                           cwd := request.cwd, env := env },
            events := [.spawned p.pid, .exited], finalClock := p.runTime }

/-- One chunk yielded by stream_output, tagged with the stream it came from. -/
inductive StreamChunk where
  | out (line : String)
  | err (line : String)
deriving DecidableEq, Repr

/-- Embeds the while-True polling loop of ShellExecutor.stream_output in the
environment where the spawned process has already exited (returncode visible
throughout) and its remaining output is buffered, so each readline returns the
next buffered line of that stream or empty at end-of-stream.  Per iteration
the source reads stdout first (yield if a line, break if EOF and returncode is
known), then stderr the same way, then sleeps and repeats. -/
def ShellExecutor.streamLoop : List String → List String → List StreamChunk
  | [], _ => []
  | o :: _, [] => [.out o]
  | o :: os, e :: es => .out o :: .err e :: ShellExecutor.streamLoop os es

/-- Embeds ShellExecutor.stream_output for a request whose process behaves as
described at streamLoop: outLines and errLines are the buffered lines of the
two streams. -/
def ShellExecutor.stream_output (_ex : ShellExecutor) (_request : ExecutionRequest)
    (outLines errLines : List String) : List StreamChunk :=
  ShellExecutor.streamLoop outLines errLines

/-- Embeds manager.py AgentTask (dataclass). -/
structure AgentTask where
  task_id : String
  prompt : String
  model : Option String := none
  timeout : Option Nat := none
  sandbox : Bool := false
  elevated : Bool := false
deriving DecidableEq, Repr

/-- Embeds manager.py AgentResult (dataclass); duration is the abstract
event-loop clock difference. -/
structure AgentResult where
  task_id : String
  success : Bool
  output : String
  error : Option String := none
  duration : Nat := 0
deriving DecidableEq, Repr

/-- Python exceptions that can cross function boundaries in the manager:
an AttributeError from a failed attribute lookup, or the exception raised by
the Ollama client (network fault, bad response), carrying its text. -/
inductive PyError where
  | attributeError (objType attr : String)
  | upstream (msg : String)
deriving DecidableEq, Repr

/-- Text of str(e) for a PyError. -/
def PyError.message : PyError → String
  | .attributeError objType attr =>
      "object of type " ++ objType ++ " has no attribute " ++ attr
  | .upstream msg => msg

/-- Value of the local name `task` inside AgentManager.create_agent: before the
line `task = asyncio.create_task(agent_worker())` it denotes the AgentTask
argument; after that line it denotes the asyncio.Task object.  The
agent_worker closure reads the variable, not its value at capture time, so the
worker also sees whatever the name denotes when the worker runs. -/
inductive TaskRef where
  | agentTask (t : AgentTask)
  | asyncioTask (agent_id : String)
deriving DecidableEq, Repr

/-- Attribute lookup task.task_id: an AgentTask has the field; an asyncio.Task
object defines no attribute task_id, so the lookup raises AttributeError. -/
def TaskRef.attr_task_id : TaskRef → Except PyError String
  | .agentTask t => .ok t.task_id
  | .asyncioTask _ => .error (.attributeError "Task" "task_id")

/-- Attribute lookup task.prompt (asyncio.Task has no such attribute). -/
def TaskRef.attr_prompt : TaskRef → Except PyError String
  | .agentTask t => .ok t.prompt
  | .asyncioTask _ => .error (.attributeError "Task" "prompt")

/-- Attribute lookup task.model (asyncio.Task has no such attribute). -/
def TaskRef.attr_model : TaskRef → Except PyError (Option String)
  | .agentTask t => .ok t.model
  | .asyncioTask _ => .error (.attributeError "Task" "model")

/-- Chat message as built by _run_agent: a role and content dict. -/
structure ChatMessage where
  role : String
  content : String
deriving DecidableEq, Repr

/-- Oracle for the external collaborator self.ollama_client.chat: given the
message list and the optional model override it returns the content of
response.message, or raises (the error text is str of the exception). -/
def ChatOracle := List ChatMessage → Option String → Except String String

/-- State of one agent_worker asyncio.Task. -/
inductive WorkerOutcome where
  | ok (r : AgentResult)
  | exn (e : PyError)
  | cancelled
deriving DecidableEq, Repr

/-- Lifecycle state of one agent_worker task: created but not yet past the
semaphore (scheduled), holding a semaphore slot and executing (running), or
done with an outcome.  The TaskRef is what the closure variable `task`
denotes when the worker body runs. -/
inductive WorkerState where
  | scheduled (tr : TaskRef)
  | running (tr : TaskRef)
  | done (o : WorkerOutcome)
deriving DecidableEq, Repr

/-- Python task.done(): true exactly on terminal workers. -/
def workerDone : WorkerState → Bool
  | .done _ => true
  | _ => false

/-- True on workers currently executing past the concurrency gate. -/
def isRunningW : WorkerState → Bool
  | .running _ => true
  | _ => false

/-- Embeds the mutable state of an AgentManager instance: self.agents (keyed
by agent id, in insertion order), self.results (keyed by task id), and the
free-slot count of self.semaphore. -/
structure ManagerState where
  agents : List (String × WorkerState)
  results : List (String × AgentResult)
  semFree : Nat
deriving DecidableEq, Repr

/-- Embeds AgentManager.__init__ with gate capacity c
(asyncio.Semaphore(settings.max_concurrent_agents) in the source). -/
def initManager (c : Nat) : ManagerState :=
  { agents := [], results := [], semFree := c }

/-- Embeds AgentManager._run_agent.  The shell_executor argument models the
self.shell_executor field that is in scope in the method; the body never
reads it, exactly as in the source, which routes every task to
ollama_client.chat.  The try block accesses task.prompt, task.model and
task.task_id on the received TaskRef; any exception there (an AttributeError
as well as a chat failure) is caught by `except Exception`, whose handler
again accesses task.task_id to build the failed result — if that lookup
itself raises, the new exception escapes _run_agent.  Both branches record
the result in self.results.  elapsed is the abstract clock difference the
source computes from the event loop time. -/
def AgentManager._run_agent (chat : ChatOracle)
    (shell_executor : ExecutionRequest → ExecutionResult) (elapsed : Nat)
    (task : TaskRef) (results : List (String × AgentResult)) :
    Except PyError AgentResult × List (String × AgentResult) :=
  let body : Except PyError AgentResult := do
    let prompt ← task.attr_prompt
    let model ← task.attr_model
    let content ←
      match chat [{ role := "user", content := prompt }] model with
      | .ok c => Except.ok c
      | .error msg => Except.error (PyError.upstream msg)
    let tid ← task.attr_task_id
    Except.ok { task_id := tid, success := true, output := content,
                error := none, duration := elapsed }
  match body with
  | .ok r => (Except.ok r, dictSet results r.task_id r)
  | .error e =>
      match task.attr_task_id with
      | .ok tid =>
          let r : AgentResult := { task_id := tid, success := false, output := "",
                                   error := some e.message, duration := elapsed }
          (Except.ok r, dictSet results tid r)
      | .error e2 => (Except.error e2, results)

/-- Embeds AgentManager.create_agent.  The source computes the agent id,
defines agent_worker, rebinds the local name `task` to the asyncio.Task
returned by asyncio.create_task (so the scheduled worker will read that
object through the closure), stores the task in self.agents, and then
evaluates the f-string of the log line, whose attribute access task.task_id
is performed on the asyncio.Task and raises before the agent id can be
returned.  The AgentTask argument itself is never read after the rebinding. -/
def AgentManager.create_agent (st : ManagerState) (tk : AgentTask) :
    Except PyError String × ManagerState :=
  let agent_id := "agent_" ++ toString (st.agents.length + 1)
  let task : TaskRef := TaskRef.asyncioTask agent_id
  let st1 : ManagerState :=
    { st with agents := st.agents ++ [(agent_id, WorkerState.scheduled task)] }
  match task.attr_task_id with
  | .ok _ => (Except.ok agent_id, st1)
  | .error e => (Except.error e, st1)

/-- Look up a key in an association list (Python dict access). -/
def dictGet {β : Type} (d : List (String × β)) (k : String) : Option β :=
  (d.find? (fun p => p.1 == k)).map Prod.snd

/-- Replace the state of the worker registered under agent_id and install the
new results registry. -/
def setWorker (st : ManagerState) (agent_id : String) (w : WorkerState)
    (results : List (String × AgentResult)) : ManagerState :=
  { st with
    agents := st.agents.map (fun a => if a.1 == agent_id then (a.1, w) else a)
    results := results }

/-- Embeds `await self.agents[agent_id]` in run_swarm: a finished worker
yields its recorded outcome; awaiting an unfinished worker drives it to
completion through _run_agent on the TaskRef its closure holds.  A worker that
finished with an exception (or was cancelled) makes the await raise, which the
surrounding `except Exception` of run_swarm swallows after logging, so no
result is appended for it (modelled by none). -/
def AgentManager.awaitWorker (chat : ChatOracle)
    (shell_executor : ExecutionRequest → ExecutionResult) (elapsed : Nat)
    (st : ManagerState) (agent_id : String) : Option AgentResult × ManagerState :=
  match dictGet st.agents agent_id with
  | some (.done (.ok r)) => (some r, st)
  | some (.done _) => (none, st)
  | some (.scheduled tr) | some (.running tr) =>
      match AgentManager._run_agent chat shell_executor elapsed tr st.results with
      | (.ok r, results1) =>
          (some r, setWorker st agent_id (.done (.ok r)) results1)
      | (.error e, results1) =>
          (none, setWorker st agent_id (.done (.exn e)) results1)
  | none => (none, st)

/-- First loop of run_swarm: create an agent per task, collecting the ids; an
exception raised by create_agent is not caught there and escapes run_swarm. -/
def AgentManager.createAgentsLoop (st : ManagerState) :
    List AgentTask → Except PyError (List String) × ManagerState
  | [] => (.ok [], st)
  | tk :: rest =>
      match AgentManager.create_agent st tk with
      | (.ok agent_id, st1) =>
          match AgentManager.createAgentsLoop st1 rest with
          | (.ok ids, st2) => (.ok (agent_id :: ids), st2)
          | (.error e, st2) => (.error e, st2)
      | (.error e, st1) => (.error e, st1)

/-- Second loop of run_swarm: await each agent in submission order, appending
only the results of awaits that did not raise. -/
def AgentManager.awaitLoop (chat : ChatOracle)
    (shell_executor : ExecutionRequest → ExecutionResult) (elapsed : Nat)
    (st : ManagerState) : List String → List AgentResult × ManagerState
  | [] => ([], st)
  | agent_id :: rest =>
      match AgentManager.awaitWorker chat shell_executor elapsed st agent_id with
      | (r?, st1) =>
          match AgentManager.awaitLoop chat shell_executor elapsed st1 rest with
          | (rs, st2) =>
              (match r? with
               | some r => r :: rs
               | none => rs, st2)

/-- Embeds AgentManager.run_swarm: create all agents, then await each in
submission order.  An exception from create_agent propagates to the caller. -/
def AgentManager.run_swarm (chat : ChatOracle)
    (shell_executor : ExecutionRequest → ExecutionResult) (elapsed : Nat)
    (st : ManagerState) (tasks : List AgentTask) :
    Except PyError (List AgentResult) × ManagerState :=
  match AgentManager.createAgentsLoop st tasks with
  | (.error e, st1) => (.error e, st1)
  | (.ok ids, st1) =>
      match AgentManager.awaitLoop chat shell_executor elapsed st1 ids with
      | (rs, st2) => (.ok rs, st2)

/-- Aggregate snapshot returned by AgentManager.get_status. -/
structure StatusSnapshot where
  active_agents : Nat
  completed_tasks : Nat
  failed_tasks : Nat
  total_agents : Nat
deriving DecidableEq, Repr

/-- Embeds AgentManager.get_status: active counts the registered asyncio
tasks not yet done, the completed and failed counts scan self.results, and
total is the size of self.agents. -/
def AgentManager.get_status (st : ManagerState) : StatusSnapshot :=
  { active_agents := (st.agents.filter (fun a => !workerDone a.2)).length
    completed_tasks := (st.results.filter (fun r => r.2.success)).length
    failed_tasks := (st.results.filter (fun r => !r.2.success)).length
    total_agents := st.agents.length }

/-- Number of workers currently executing past the concurrency gate. -/
def countRunning (st : ManagerState) : Nat :=
  st.agents.countP (fun a => isRunningW a.2)

/-- The cancel-and-await phase of AgentManager.shutdown: every worker with
task.done() false receives task.cancel() and is awaited; cooperative
cancellation delivers CancelledError at the next suspension point (it is not
caught by the `except Exception` of _run_agent), so each such worker
converges to the cancelled terminal state; a running worker releases its
semaphore slot when its `async with` scope unwinds. -/
def AgentManager.cancelAll (st : ManagerState) : ManagerState :=
  { st with
    agents := st.agents.map
      (fun a => if workerDone a.2 then a else (a.1, WorkerState.done .cancelled))
    semFree := st.semFree + countRunning st }

/-- Embeds AgentManager.shutdown: cancel and await every non-terminal worker,
and only after all of them have converged clear self.agents and self.results.
The first component lists the agent ids that received the cancellation
signal. -/
def AgentManager.shutdown (st : ManagerState) : List String × ManagerState :=
  let cancelled := (st.agents.filter (fun a => !workerDone a.2)).map Prod.fst
  let st1 := AgentManager.cancelAll st
  (cancelled, { st1 with agents := [], results := [] })

/-- Scheduler events of the cooperative event loop acting on one manager:
submit runs create_agent (its exception interrupts the submitting caller, but
the worker is registered and scheduled first); acquire lets the worker at
position i pass the concurrency gate when a slot is free; finish runs the
worker at position i to completion, releasing its slot. -/
inductive MEvent where
  | submit (tk : AgentTask)
  | acquire (i : Nat)
  | finish (i : Nat) (elapsed : Nat)

/-- Embeds `async with self.semaphore` entry: the worker at position i moves
from scheduled to running only if a slot is free; otherwise it keeps
waiting. -/
def stepAcquire (st : ManagerState) (i : Nat) : ManagerState :=
  match st.agents.get? i with
  | some (id, .scheduled tr) =>
      if 0 < st.semFree then
        { st with agents := st.agents.set i (id, .running tr),
                  semFree := st.semFree - 1 }
      else st
  | _ => st

/-- Runs the worker body at position i to completion: _run_agent executes on
the TaskRef the closure holds, the worker becomes done, and the semaphore
slot is released when the `async with` scope unwinds (also on exception). -/
def stepFinish (chat : ChatOracle)
    (shell_executor : ExecutionRequest → ExecutionResult) (st : ManagerState)
    (i : Nat) (elapsed : Nat) : ManagerState :=
  match st.agents.get? i with
  | some (id, .running tr) =>
      match AgentManager._run_agent chat shell_executor elapsed tr st.results with
      | (.ok r, results1) =>
          { st with agents := st.agents.set i (id, .done (.ok r)),
                    results := results1, semFree := st.semFree + 1 }
      | (.error e, results1) =>
          { st with agents := st.agents.set i (id, .done (.exn e)),
                    results := results1, semFree := st.semFree + 1 }
  | _ => st

/-- One scheduler event applied to the manager state. -/
def applyEvent (chat : ChatOracle)
    (shell_executor : ExecutionRequest → ExecutionResult) (st : ManagerState) :
    MEvent → ManagerState
  | .submit tk => (AgentManager.create_agent st tk).2
  | .acquire i => stepAcquire st i
  | .finish i elapsed => stepFinish chat shell_executor st i elapsed

/-- The manager state reached from a fresh AgentManager with gate capacity c
after a sequence of scheduler events. -/
def AgentManager.runEvents (chat : ChatOracle)
    (shell_executor : ExecutionRequest → ExecutionResult) (c : Nat)
    (evs : List MEvent) : ManagerState :=
  evs.foldl (applyEvent chat shell_executor) (initManager c)

/-- Concrete task used to exercise the manager. -/
def tk0 : AgentTask := { task_id := "t1", prompt := "hello" }

/-- Concrete shell-command task with the sandbox flag set. -/
def tkShell : AgentTask := { task_id := "t1", prompt := "run ls", sandbox := true }

/-- Chat oracle that answers every call. -/
def chatReply : ChatOracle := fun _ _ => Except.ok "model-reply"

/-- Chat oracle whose network call fails. -/
def chatBoom : ChatOracle := fun _ _ => Except.error "boom"

/-- One concrete shell executor collaborator. -/
def shellExecA : ExecutionRequest → ExecutionResult := fun r =>
  { command := r.command, exit_code := 0, stdout := "shell-a", stderr := "",
    duration := 0 }

/-- A second, observably different shell executor collaborator. -/
def shellExecB : ExecutionRequest → ExecutionResult := fun r =>
  { command := r.command, exit_code := 1, stdout := "shell-b", stderr := "",
    duration := 0 }

/-- Fresh manager state with the configured gate capacity. -/
def init0 : ManagerState := initManager settings.max_concurrent_agents

/-- State after one submission whose worker has been scheduled, admitted and
run to completion. -/
def st7 : ManagerState :=
  AgentManager.runEvents chatReply shellExecA settings.max_concurrent_agents
    [.submit tk0, .acquire 0, .finish 0 0]

/-- Executor on a POSIX host. -/
def exLinux : ShellExecutor := { platform := "linux" }

/-- Request of the timeout scenario: sleep 5 with a one-second timeout. -/
def reqSleep : ExecutionRequest := { command := "sleep 5", timeout := some 1 }

/-- Process behaviour of sleep 5: exits on its own after five seconds. -/
def pSleep : ProcessBehaviour :=
  { pid := 42, runTime := 5, reapTime := 0, exit_code := 0, stdout := "",
    stderr := "" }

/-- Request carrying the explicit timeout value 0. -/
def reqZero : ExecutionRequest := { command := "sleep 1", timeout := some 0 }

/-- Process that runs for one second and exits normally. -/
def pOne : ProcessBehaviour :=
  { pid := 7, runTime := 1, reapTime := 0, exit_code := 0, stdout := "",
    stderr := "" }

/-- Container oracle that is never consulted on the host path. -/
def cont0 : ContainerOutcome := .finished 0 "" 0

/-- Request for a command that emits three stdout lines. -/
def reqEcho : ExecutionRequest := { command := "printf three lines" }

/-- Request for a command that writes one stderr line only. -/
def reqWarn : ExecutionRequest := { command := "warn" }

/-- Plain host-path request. -/
def reqPlain : ExecutionRequest := { command := "ls" }

/-- Sandboxed request (container path, containers enabled in settings). -/
def reqSand : ExecutionRequest := { command := "ls", sandbox := true }

/-- Manager state holding one running worker, used to exercise shutdown. -/
def st8 : ManagerState :=
  { agents := [("agent_1", WorkerState.running (TaskRef.asyncioTask "agent_1"))],
    results := [], semFree := 3 }

/-- Manager state with a scheduled worker and no free slot. -/
def st9 : ManagerState :=
  { agents := [("agent_1", WorkerState.scheduled (TaskRef.asyncioTask "agent_1"))],
    results := [], semFree := 0 }

/-- Event sequence submitting three tasks against capacity 2. -/
def evs9 : List MEvent :=
  [.submit tk0, .submit tkShell, .submit tk0, .acquire 0, .acquire 1, .acquire 2]

/-- C1: the dispatched task body performs no execution-backend selection: the
result of _run_agent is independent of the shell executor collaborator, a
shell-command task with the sandbox flag set is still answered by the
model-call collaborator, and a model-call failure is converted into a failed
AgentResult instead of propagating. -/
theorem claim1_dispatch_always_model_call :
    (∀ (chat : ChatOracle) (se1 se2 : ExecutionRequest → ExecutionResult)
       (elapsed : Nat) (task : TaskRef) (results : List (String × AgentResult)),
        AgentManager._run_agent chat se1 elapsed task results
          = AgentManager._run_agent chat se2 elapsed task results)
    ∧ (AgentManager._run_agent chatReply shellExecA 0 (TaskRef.agentTask tkShell) []).1
        = Except.ok { task_id := "t1", success := true, output := "model-reply",
                      error := none, duration := 0 }
    ∧ (AgentManager._run_agent chatBoom shellExecA 0 (TaskRef.agentTask tkShell) []).1
        = Except.ok { task_id := "t1", success := false, output := "",
                      error := some "boom", duration := 0 } :=
  ⟨fun _ _ _ _ _ _ => rfl, rfl, rfl⟩

/-- C2: create_agent registers the worker, but then raises AttributeError to
its caller on every call, because the log line reads task.task_id after the
local name task has been rebound to the asyncio.Task. -/
theorem claim2_create_agent_raises :
    (AgentManager.create_agent init0 tk0).1
      = Except.error (PyError.attributeError "Task" "task_id")
    ∧ ((AgentManager.create_agent init0 tk0).2.agents.map Prod.fst) = ["agent_1"]
    ∧ ((AgentManager.create_agent init0 tk0).2.agents.map
        (fun a => workerDone a.2)) = [false] :=
  ⟨rfl, rfl, rfl⟩

/-- C3: run_swarm on a non-empty task list propagates the AttributeError
raised inside create_agent instead of returning a result per task; only the
empty list yields a (trivially ordered) result list. -/
theorem claim3_run_swarm_raises :
    (AgentManager.run_swarm chatReply shellExecA 0 init0 [tk0]).1
      = Except.error (PyError.attributeError "Task" "task_id")
    ∧ (AgentManager.run_swarm chatReply shellExecA 0 init0 [tk0, tkShell]).1
      = Except.error (PyError.attributeError "Task" "task_id")
    ∧ (AgentManager.run_swarm chatReply shellExecA 0 init0 []).1 = Except.ok [] :=
  ⟨rfl, rfl, rfl⟩

/-- C5: for a command that has already exited after buffering three stdout
lines and no stderr output, stream_output yields exactly one chunk — the
stderr end-of-stream check breaks the loop while two stdout lines remain
buffered — and for a command whose only output is one buffered stderr line it
yields nothing at all; the claimed three chunks and both-streams-drained
termination do not hold. -/
theorem claim5_stream_output_drops_buffered_lines :
    ShellExecutor.stream_output exLinux reqEcho ["l1", "l2", "l3"] []
      = [StreamChunk.out "l1"]
    ∧ ((ShellExecutor.stream_output exLinux reqEcho ["l1", "l2", "l3"] []).length
        == 3) = false
    ∧ ShellExecutor.stream_output exLinux reqWarn [] ["warning: low disk"] = [] :=
  ⟨rfl, rfl, rfl⟩

/-- C7: after one submission whose worker has run to completion, the snapshot
counts no active, no completed and no failed task against a total of one, so
active + completed_ok + completed_failed is 0 while total is 1: the worker
died on the rebound task variable without recording any result, and the
completed and failed counters scan a registry keyed differently from the
handle registry. -/
theorem claim7_status_sum_breaks :
    AgentManager.get_status st7
      = { active_agents := 0, completed_tasks := 0, failed_tasks := 0,
          total_agents := 1 }
    ∧ (AgentManager.get_status st7).active_agents
        + (AgentManager.get_status st7).completed_tasks
        + (AgentManager.get_status st7).failed_tasks = 0
    ∧ (AgentManager.get_status st7).total_agents = 1 :=
  ⟨rfl, rfl, rfl⟩

/-- C10: the invocation vector, the spawn call (argv, stdin mode, working
directory, environment) and the entire outcome of execute are unchanged when
only the args or elevated fields of the request differ: those two fields have
no effect on execution. -/
theorem claim10_args_elevated_no_effect :
    ∀ (ex : ShellExecutor) (osEnviron : List (String × String))
      (request : ExecutionRequest) (args1 : List String) (elevated1 : Bool)
      (s : Settings) (spawn : SpawnResult) (container : ContainerOutcome),
      ex._build_command { request with args := args1, elevated := elevated1 }
          = ex._build_command request
      ∧ (mergeEnv osEnviron
            ({ request with args := args1, elevated := elevated1 } : ExecutionRequest).env)
          = mergeEnv osEnviron request.env
      ∧ ex.execute s osEnviron { request with args := args1, elevated := elevated1 }
            spawn container
          = ex.execute s osEnviron request spawn container :=
  fun _ _ _ _ _ _ _ _ => ⟨rfl, rfl, rfl⟩

theorem string_data_append (s t : String) : (s ++ t).data = s.data ++ t.data := by
  cases s
  cases t
  rfl

theorem timedOut_in_message (t : Nat) :
    ∃ pre post, ("Command timed out after " ++ (toString t ++ " seconds")).data
      = pre ++ ("timed out".data ++ post) := by
  refine ⟨"Command ".data, " after ".data ++ ((toString t).data ++ " seconds".data), ?_⟩
  rw [string_data_append, string_data_append]
  have h : "Command timed out after ".data
      = "Command ".data ++ ("timed out".data ++ " after ".data) := by decide
  rw [h]
  simp [List.append_assoc]

/-- C4 counterexample: the request carries the explicit timeout value 0, the
process runs for one second — longer than the request-specified timeout — yet
execute lets it run to completion under the configured default (Python `or`
treats 0 as unset) and returns its normal exit code 0 with no kill. -/
theorem claim4_zero_timeout_counterexample :
    reqZero.timeout = some 0
    ∧ Option.getD reqZero.timeout settings.ollama_timeout < pOne.runTime
    ∧ (exLinux.execute settings [] reqZero (.ok pOne) cont0).result.exit_code = 0
    ∧ ((exLinux.execute settings [] reqZero (.ok pOne) cont0).result.exit_code
        == -1) = false
    ∧ (exLinux.execute settings [] reqZero (.ok pOne) cont0).events
        = [.spawned 7, .exited] :=
  ⟨rfl, by decide, rfl, by decide, rfl⟩

/-- C4 (amended): when the host-path process outlives the effective timeout
(the request value when nonzero, otherwise the configured default), execute
kills the process, waits until the OS confirms termination before returning,
and returns exit code -1, an error text containing timed out, and a duration
equal to the wall clock at the moment of return. -/
theorem claim4_timeout_kill_reap_amended :
    ∀ (ex : ShellExecutor) (s : Settings) (osEnviron : List (String × String))
      (request : ExecutionRequest) (p : ProcessBehaviour)
      (container : ContainerOutcome),
      (request.sandbox && s.use_containers) = false →
      effectiveTimeout request s < p.runTime →
      (ex.execute s osEnviron request (.ok p) container).result.exit_code = -1
      ∧ (∃ pre post,
          (ex.execute s osEnviron request (.ok p) container).result.stderr.data
            = pre ++ ("timed out".data ++ post))
      ∧ (ex.execute s osEnviron request (.ok p) container).result.duration
          = (ex.execute s osEnviron request (.ok p) container).finalClock
      ∧ (ex.execute s osEnviron request (.ok p) container).finalClock
          = effectiveTimeout request s + p.reapTime
      ∧ (ex.execute s osEnviron request (.ok p) container).events
          = [.spawned p.pid, .killed, .reaped] := by
  intro ex s osEnviron request p container hpath ht
  have hx : ex.execute s osEnviron request (SpawnResult.ok p) container
      = { result := { command := request.command, exit_code := -1, stdout := "",
                      stderr := "Command timed out after "
                        ++ (toString (effectiveTimeout request s) ++ " seconds"),
                      duration := effectiveTimeout request s + p.reapTime,
                      pid := none },
          call := some { argv := ex._build_command request,
                         stdinPipe := request.pty, cwd := request.cwd,
                         env := mergeEnv osEnviron request.env },
          events := [.spawned p.pid, .killed, .reaped],
          finalClock := effectiveTimeout request s + p.reapTime } := by
    simp [ShellExecutor.execute, hpath, ht]
  rw [hx]
  exact ⟨rfl, timedOut_in_message (effectiveTimeout request s), rfl, rfl, rfl⟩

/-- C4 witness: sleep 5 under a one-second timeout is killed and reaped,
reported with exit code -1 and duration one second. -/
theorem claim4_timeout_witness :
    (reqSleep.sandbox && settings.use_containers) = false
    ∧ effectiveTimeout reqSleep settings < pSleep.runTime
    ∧ (exLinux.execute settings [] reqSleep (.ok pSleep) cont0).result.exit_code = -1
    ∧ (exLinux.execute settings [] reqSleep (.ok pSleep) cont0).result.duration = 1
    ∧ (exLinux.execute settings [] reqSleep (.ok pSleep) cont0).events
        = [.spawned 42, .killed, .reaped] := by
  have h := claim4_timeout_kill_reap_amended exLinux settings [] reqSleep pSleep
    cont0 rfl (by decide)
  exact ⟨rfl, by decide, h.1, (h.2.2.1.trans h.2.2.2.1).trans (by decide),
         h.2.2.2.2⟩

/-- C6: execute is total toward its caller: a spawn failure on the host path,
and a failure of the container backend on the sandbox path, are both
converted into an ExecutionResult with exit code -1 whose stderr carries the
exception text — neither propagates as an uncaught fault. -/
theorem claim6_execute_total_on_failure :
    (∀ (ex : ShellExecutor) (s : Settings) (osEnviron : List (String × String))
       (request : ExecutionRequest) (msg : String) (container : ContainerOutcome),
       (request.sandbox && s.use_containers) = false →
       (ex.execute s osEnviron request (.err msg) container).result.exit_code = -1
       ∧ (ex.execute s osEnviron request (.err msg) container).result.stderr = msg)
    ∧ (∀ (ex : ShellExecutor) (s : Settings) (osEnviron : List (String × String))
       (request : ExecutionRequest) (spawn : SpawnResult) (msg : String) (w : Nat),
       (request.sandbox && s.use_containers) = true →
       (ex.execute s osEnviron request spawn (.failed msg w)).result.exit_code = -1
       ∧ (ex.execute s osEnviron request spawn (.failed msg w)).result.stderr
          = msg) := by
  constructor
  · intro ex s osEnviron request msg container h
    constructor <;> simp [ShellExecutor.execute, h]
  · intro ex s osEnviron request spawn msg w h
    constructor <;>
      simp [ShellExecutor.execute, ShellExecutor._execute_in_container, h]

/-- C6 witness: a missing binary on the host path and an unreachable Docker
daemon on the sandbox path both surface as exit code -1 with the exception
text. -/
theorem claim6_execute_total_witness :
    (exLinux.execute settings [] reqPlain
        (.err "No such file or directory") cont0).result.exit_code = -1
    ∧ (exLinux.execute settings [] reqPlain
        (.err "No such file or directory") cont0).result.stderr
        = "No such file or directory"
    ∧ (exLinux.execute settings [] reqSand (.ok pOne)
        (.failed "docker daemon unreachable" 2)).result.exit_code = -1
    ∧ (exLinux.execute settings [] reqSand (.ok pOne)
        (.failed "docker daemon unreachable" 2)).result.stderr
        = "docker daemon unreachable" := by
  have h1 := claim6_execute_total_on_failure.1 exLinux settings [] reqPlain
    "No such file or directory" cont0 rfl
  have h2 := claim6_execute_total_on_failure.2 exLinux settings [] reqSand
    (.ok pOne) "docker daemon unreachable" 2 rfl
  exact ⟨h1.1, h1.2, h2.1, h2.2⟩

/-- C8: shutdown delivers the cancellation signal to every non-terminal
worker, every worker has converged to a terminal state — the previously
non-terminal ones specifically to cancelled — before the registries are
cleared, both registries end empty, and a second shutdown performs no work
and raises no error. -/
theorem claim8_shutdown_cancels_then_clears :
    ∀ st : ManagerState,
      (∀ a ∈ st.agents, workerDone a.2 = false → a.1 ∈ (AgentManager.shutdown st).1)
      ∧ (∀ a ∈ (AgentManager.cancelAll st).agents, workerDone a.2 = true)
      ∧ (∀ i a, st.agents.get? i = some a → workerDone a.2 = false →
          (AgentManager.cancelAll st).agents.get? i
            = some (a.1, WorkerState.done .cancelled))
      ∧ (AgentManager.shutdown st).2.agents = []
      ∧ (AgentManager.shutdown st).2.results = []
      ∧ AgentManager.shutdown (AgentManager.shutdown st).2
          = ([], (AgentManager.shutdown st).2) := by
  intro st
  refine ⟨?_, ?_, ?_, rfl, rfl, rfl⟩
  · intro a ha hnd
    show a.1 ∈ (st.agents.filter (fun a => !workerDone a.2)).map Prod.fst
    exact List.mem_map.mpr ⟨a, List.mem_filter.mpr ⟨ha, by simp [hnd]⟩, rfl⟩
  · intro a ha
    simp only [AgentManager.cancelAll, List.mem_map] at ha
    obtain ⟨b, hb, rfl⟩ := ha
    obtain ⟨bid, w⟩ := b
    cases w <;> simp [workerDone]
  · intro i a hi hnd
    simp only [AgentManager.cancelAll]
    rw [List.get?_eq_getElem?] at hi ⊢
    rw [List.getElem?_map, hi]
    simp [hnd]

/-- C8 witness: shutdown of a state with one running worker cancels it,
clears both registries, and a repeated shutdown is a no-op. -/
theorem claim8_shutdown_witness :
    "agent_1" ∈ (AgentManager.shutdown st8).1
    ∧ (AgentManager.cancelAll st8).agents.get? 0
        = some ("agent_1", WorkerState.done .cancelled)
    ∧ (AgentManager.shutdown st8).2.agents = []
    ∧ (AgentManager.shutdown st8).2.results = []
    ∧ AgentManager.shutdown (AgentManager.shutdown st8).2
        = ([], (AgentManager.shutdown st8).2) := by
  have h := claim8_shutdown_cancels_then_clears st8
  exact ⟨h.1 ("agent_1", WorkerState.running (TaskRef.asyncioTask "agent_1"))
           (by decide) rfl,
         h.2.2.1 0 ("agent_1", WorkerState.running (TaskRef.asyncioTask "agent_1"))
           rfl rfl,
         h.2.2.2.1, h.2.2.2.2.1, h.2.2.2.2.2⟩

theorem countP_set_eq {α : Type} (p : α → Bool) :
    ∀ (l : List α) (i : Nat) (a b : α), l.get? i = some a →
      (l.set i b).countP p + (if p a then 1 else 0)
        = l.countP p + (if p b then 1 else 0) := by
  intro l
  induction l with
  | nil => intro i a b h; simp [List.get?] at h
  | cons x xs ih =>
      intro i a b h
      cases i with
      | zero =>
          simp only [List.get?] at h
          injection h with h
          subst h
          simp only [List.set, List.countP_cons]
          omega
      | succ n =>
          simp only [List.get?] at h
          have hx := ih n a b h
          simp only [List.set, List.countP_cons]
          omega

theorem countP_set_flip {α : Type} (p : α → Bool) (l : List α) (i : Nat) (a b : α)
    (h : l.get? i = some a) (ha : p a = false) (hb : p b = true) :
    (l.set i b).countP p = l.countP p + 1 := by
  have hc := countP_set_eq p l i a b h
  rw [ha, hb] at hc
  simp at hc
  omega

theorem countP_set_drop {α : Type} (p : α → Bool) (l : List α) (i : Nat) (a b : α)
    (h : l.get? i = some a) (ha : p a = true) (hb : p b = false) :
    (l.set i b).countP p + 1 = l.countP p := by
  have hc := countP_set_eq p l i a b h
  rw [ha, hb] at hc
  simp at hc
  omega

theorem inv_applyEvent (chat : ChatOracle) (se : ExecutionRequest → ExecutionResult)
    (c : Nat) (st : ManagerState) (ev : MEvent)
    (h : countRunning st + st.semFree = c) :
    countRunning (applyEvent chat se st ev)
      + (applyEvent chat se st ev).semFree = c := by
  cases ev with
  | submit tk =>
      have h1 : countRunning (AgentManager.create_agent st tk).2 = countRunning st := by
        simp [AgentManager.create_agent, TaskRef.attr_task_id, countRunning,
              List.countP_append, List.countP_cons, isRunningW]
      have h2 : (AgentManager.create_agent st tk).2.semFree = st.semFree := by
        simp [AgentManager.create_agent, TaskRef.attr_task_id]
      simp only [applyEvent]
      rw [h1, h2]
      exact h
  | acquire i =>
      simp only [applyEvent]
      unfold stepAcquire
      cases heq : st.agents.get? i with
      | none => simpa [heq] using h
      | some a =>
          obtain ⟨id, w⟩ := a
          cases w with
          | scheduled tr =>
              by_cases hpos : 0 < st.semFree
              · have hc := countP_set_flip (fun x : String × WorkerState => isRunningW x.2) st.agents i
                  (id, WorkerState.scheduled tr) (id, WorkerState.running tr)
                  heq rfl rfl
                simp only [heq, if_pos hpos]
                simp only [countRunning] at h hc ⊢
                omega
              · simpa [heq, if_neg hpos] using h
          | running tr => simpa [heq] using h
          | done o => simpa [heq] using h
  | finish i elapsed =>
      simp only [applyEvent]
      unfold stepFinish
      cases heq : st.agents.get? i with
      | none => simpa [heq] using h
      | some a =>
          obtain ⟨id, w⟩ := a
          cases w with
          | scheduled tr => simpa [heq] using h
          | running tr =>
              rcases hrun : AgentManager._run_agent chat se elapsed tr st.results
                with ⟨er, results1⟩
              cases er with
              | ok r =>
                  have hc := countP_set_drop (fun x : String × WorkerState => isRunningW x.2) st.agents i
                    (id, WorkerState.running tr)
                    (id, WorkerState.done (WorkerOutcome.ok r)) heq rfl rfl
                  simp only [heq, hrun]
                  simp only [countRunning] at h hc ⊢
                  omega
              | error e =>
                  have hc := countP_set_drop (fun x : String × WorkerState => isRunningW x.2) st.agents i
                    (id, WorkerState.running tr)
                    (id, WorkerState.done (WorkerOutcome.exn e)) heq rfl rfl
                  simp only [heq, hrun]
                  simp only [countRunning] at h hc ⊢
                  omega
          | done o => simpa [heq] using h

theorem inv_foldl (chat : ChatOracle) (se : ExecutionRequest → ExecutionResult)
    (c : Nat) :
    ∀ (evs : List MEvent) (st : ManagerState),
      countRunning st + st.semFree = c →
      countRunning (evs.foldl (applyEvent chat se) st)
        + (evs.foldl (applyEvent chat se) st).semFree = c := by
  intro evs
  induction evs with
  | nil => intro st h; simpa using h
  | cons e rest ih =>
      intro st h
      simp only [List.foldl_cons]
      exact ih _ (inv_applyEvent chat se c st e h)

/-- C9: in every state reachable by scheduler events from a fresh manager
with gate capacity c, at most c workers are simultaneously running past the
concurrency gate; and when no slot is free, an admission attempt leaves the
state unchanged — the submission stays pending. -/
theorem claim9_running_bounded_by_capacity :
    (∀ (chat : ChatOracle) (se : ExecutionRequest → ExecutionResult) (c : Nat)
       (evs : List MEvent),
        countRunning (AgentManager.runEvents chat se c evs) ≤ c)
    ∧ (∀ (st : ManagerState) (i : Nat), st.semFree = 0 → stepAcquire st i = st) := by
  constructor
  · intro chat se c evs
    have h := inv_foldl chat se c evs (initManager c)
      (by simp [countRunning, initManager])
    simp only [AgentManager.runEvents]
    omega
  · intro st i h
    unfold stepAcquire
    cases heq : st.agents.get? i with
    | none => simp [heq]
    | some a =>
        obtain ⟨id, w⟩ := a
        cases w with
        | scheduled tr => simp [heq, h]
        | running tr => simp [heq]
        | done o => simp [heq]

/-- C9 witness: a blocked admission attempt with no free slot is a no-op, and
a concrete event sequence submitting three tasks against capacity 2 never
exceeds two running workers. -/
theorem claim9_capacity_witness :
    stepAcquire st9 0 = st9
    ∧ countRunning (AgentManager.runEvents chatReply shellExecA 2 evs9) ≤ 2 :=
  ⟨claim9_running_bounded_by_capacity.2 st9 0 rfl,
   claim9_running_bounded_by_capacity.1 chatReply shellExecA 2 evs9⟩

end HelpMate
